import Mathlib

/-!
Verification development for the deferred-expression engine in
`holoviews/util/transform.py` (the `dim` class and its transform helper
functions).

The embedding is a shallow one: the `dim` class becomes an inductive type
carrying a dimension name and an ordered list of operations; each Python
operator / method entry point becomes a Lean function that builds a new
`dim` through the embedded `__init__` (`dimInit`); the evaluator `apply`
becomes a structurally recursive fold over the operation list.  Machine
numbers are modelled exactly: Python/NumPy ints as `Int`, floats as `ℚ`
(exact rational fragment).  Functions whose results are irrational
(`log`, `std`, `lognorm`, ...) or that delegate to NumPy casting are
mapped to an explicit out-of-fragment error; no claim below evaluates
them.  Fallible code returns `Except PyErr`.
-/

namespace Transform

/-- Python runtime values in the exact numeric fragment.  `int`/`float`
mirror the NumPy int/float dtype split (needed because `bin` branches on
the dtype kind of its label array); `nan` is the float NaN sentinel;
`none` is Python `None`; `pyObj` stands for an opaque Python object such
as the `str` type object. -/
inductive Val where
  | int : Int → Val
  | float : ℚ → Val
  | str : String → Val
  | bool : Bool → Val
  | none : Val
  | nan : Val
  | list : List Val → Val
  | dict : List (Val × Val) → Val
  | pyObj : String → Val
deriving Repr

/-- The binary operators of `dim._binary_funcs` (operator.add .. operator.truediv). -/
inductive BinOp where
  | add | andB | eq | floordiv | ge | gt | le | lshift | lt | mod | mul | ne | orB | pow | rshift | sub | truediv
deriving DecidableEq, Repr

/-- The unary operators of `dim._unary_funcs` (operator.pos, operator.neg, operator.not_). -/
inductive UnOp where
  | pos | neg | notU
deriving DecidableEq, Repr

/-- The NumPy functions of `dim._numpy_funcs`, plus `np.clip` (used by `dim.clip`). -/
inductive NpFn where
  | anyF | allF | cumprod | cumsum | maxF | meanF | minF | sumF | std | var | log | log10 | clip
deriving DecidableEq, Repr

/-- Function identities, replacing Python function-object identity by a
closed sum type (each module-level function of the source is one tag).
`custom` is an opaque external function supplied through the `pipe` /
`register` escape hatches; `strRef` is a plain string stored in the `fn`
slot (reachable only when a string matches a key of the mutated custom
registry, see `register`). -/
inductive FnId where
  | binOp : BinOp → FnId
  | unOp : UnOp → FnId
  | builtinAbs : FnId
  | roundFn : FnId
  | npFn : NpFn → FnId
  | normFn : FnId
  | lognormFn : FnId
  | binFn : FnId
  | categorizeFn : FnId
  | digitizeFn : FnId
  | isinFn : FnId
  | astypeFn : FnId
  | custom : Nat → FnId
  | strRef : String → FnId
deriving DecidableEq, Repr

mutual

/-- The `dim` expression class: a dimension name (the anchor, always a
`Dimension` wrapping a name string in this source) plus the ordered
operation list `self.ops`. -/
inductive dim where
  | mk : (dimension : String) → (ops : List Op) → dim

/-- One element of `self.ops`: the dict
`{args, fn, kwargs, reverse}` built in `dim.__init__`. -/
inductive Op where
  | mk : (fn : FnId) → (args : List Arg) → (kwargs : List (String × Arg)) → (reverse : Bool) → Op

/-- An operation argument: either a plain value or a nested `dim`
expression (to be resolved during `apply`). -/
inductive Arg where
  | v : Val → Arg
  | e : dim → Arg

end

def dim.dimension : dim → String
  | .mk d _ => d

def dim.ops : dim → List Op
  | .mk _ o => o

def Op.fn : Op → FnId
  | .mk f _ _ _ => f

def Op.args : Op → List Arg
  | .mk _ a _ _ => a

def Op.kwargs : Op → List (String × Arg)
  | .mk _ _ k _ => k

def Op.reverse : Op → Bool
  | .mk _ _ _ r => r

/-- Errors surfaced by the embedded code.  `invalidOperation` is the
name the specification gives to the construction-time `ValueError`s of
the source; the other constructors mirror the Python exception that
would be raised.  `outOfFragment` marks behaviour that leaves the exact
rational fragment of this embedding (irrational results, NumPy casting,
NumPy dispatch on expression-valued operands); no claim exercises it. -/
inductive PyErr where
  | invalidOperation : String → PyErr
  | attributeError : String → PyErr
  | typeError : String → PyErr
  | valueError : String → PyErr
  | indexError : String → PyErr
  | outOfFragment : String → PyErr
deriving DecidableEq, Repr

/-! ## Function registries

The registries are Python class-level dicts.  The custom registry is the
only one mutated at runtime (`dim.register` writes into it), and Python
dicts are heterogeneous, so its keys and values are modelled by the sum
`RegItem` (a function identity or a display-name string).  The initial
entries, copied from the class body of `dim`, all map a function to its
display name. -/

/-- An entry (key or value) of the mutable custom-transform registry:
either a function object or a display-name string. -/
inductive RegItem where
  | fn : FnId → RegItem
  | name : String → RegItem
deriving DecidableEq, Repr

/-- A Python dict with `RegItem` keys and values, as an insertion-ordered
association list. -/
abbrev Registry := List (RegItem × RegItem)

/-- Python `d[k] = v`: replace the value of an existing key in place,
otherwise append the new pair. -/
def dictSet (r : Registry) (k v : RegItem) : Registry :=
  if r.any (fun p => p.1 = k) then
    r.map (fun p => if p.1 = k then (k, v) else p)
  else
    r ++ [(k, v)]

/-- Python `d.get(k)` on the registry. -/
def dictGet (r : Registry) (k : RegItem) : Option RegItem :=
  (r.find? (fun p => p.1 = k)).map (fun p => p.2)

/-- `dim._binary_funcs`: binary operator → display symbol. -/
def binaryFuncs : List (FnId × String) :=
  [(.binOp .add, "+"), (.binOp .andB, "&"), (.binOp .eq, "="),
   (.binOp .floordiv, "//"), (.binOp .ge, ">="), (.binOp .gt, ">"),
   (.binOp .le, "<="), (.binOp .lshift, "<<"), (.binOp .lt, "<"),
   (.binOp .mod, "%"), (.binOp .mul, "*"), (.binOp .ne, "!="),
   (.binOp .orB, "|"), (.binOp .pow, "**"), (.binOp .rshift, ">>"),
   (.binOp .sub, "-"), (.binOp .truediv, "/")]

/-- `dim._builtin_funcs`: abs and round_ → display name. -/
def builtinFuncs : List (FnId × String) :=
  [(.builtinAbs, "abs"), (.roundFn, "round")]

/-- `dim._custom_funcs` as initialised in the class body: each
custom-transform function mapped to its display name.  This dict is the
one `dim.register` mutates. -/
def customFuncs0 : Registry :=
  [(.fn .normFn, .name "norm"), (.fn .lognormFn, .name "lognorm"),
   (.fn .binFn, .name "bin"), (.fn .categorizeFn, .name "categorize"),
   (.fn .digitizeFn, .name "digitize"), (.fn .isinFn, .name "isin"),
   (.fn .astypeFn, .name "astype"), (.fn .roundFn, .name "round")]

/-- `dim._numpy_funcs`: NumPy reduction / elementwise function → display name. -/
def numpyFuncs : List (FnId × String) :=
  [(.npFn .anyF, "any"), (.npFn .allF, "all"),
   (.npFn .cumprod, "cumprod"), (.npFn .cumsum, "cumsum"),
   (.npFn .maxF, "max"), (.npFn .meanF, "mean"), (.npFn .minF, "min"),
   (.npFn .sumF, "sum"), (.npFn .std, "std"), (.npFn .var, "var"),
   (.npFn .log, "log"), (.npFn .log10, "log10")]

/-- `dim._unary_funcs`: unary operator → display symbol. -/
def unaryFuncs : List (FnId × String) :=
  [(.unOp .pos, "+"), (.unOp .neg, "-"), (.unOp .notU, "~")]

/-- `dim.register(key, function)`: the source executes
`cls._custom_funcs[key] = function`, i.e. it inserts the display-name
string as the KEY and the function as the VALUE (the reverse of the
orientation of every initial entry of the registry). -/
def register (key : String) (function : FnId) (customFuncs : Registry) : Registry :=
  dictSet customFuncs (.name key) (.fn function)

/-- Attribute lookup on the Python `operator` module, restricted to the
names the source accesses.  `rlshift`, `rrshift` and (under Python 3)
`div` are not attributes of the `operator` module, so looking them up
raises `AttributeError`; every other name used by the source resolves. -/
def operatorAttr : String → Option FnId
  | "add" => some (.binOp .add)
  | "and_" => some (.binOp .andB)
  | "eq" => some (.binOp .eq)
  | "floordiv" => some (.binOp .floordiv)
  | "ge" => some (.binOp .ge)
  | "gt" => some (.binOp .gt)
  | "le" => some (.binOp .le)
  | "lshift" => some (.binOp .lshift)
  | "lt" => some (.binOp .lt)
  | "mod" => some (.binOp .mod)
  | "mul" => some (.binOp .mul)
  | "ne" => some (.binOp .ne)
  | "or_" => some (.binOp .orB)
  | "pow" => some (.binOp .pow)
  | "rshift" => some (.binOp .rshift)
  | "sub" => some (.binOp .sub)
  | "truediv" => some (.binOp .truediv)
  | "neg" => some (.unOp .neg)
  | "not_" => some (.unOp .notU)
  | "pos" => some (.unOp .pos)
  | _ => Option.none

/-! ## Construction (`dim.__init__`) -/

/-- The first positional argument of `dim(...)`: a name string (wrapped
into a `Dimension`, which in this source only carries the name), an
existing `Dimension`, or another `dim` expression whose anchor and
operation list are copied; any other object lacks a `.dimension`
attribute. -/
inductive Anchor where
  | str : String → Anchor
  | dimObj : dim → Anchor
  | other : Val → Anchor

/-- A candidate for the function slot of `dim.__init__`: an actual
function object, or an arbitrary non-function Python object. -/
inductive FnCand where
  | f : FnId → FnCand
  | notF : Val → FnCand

/-- `isinstance(fn, function_types)`: every modelled function identity
is a Python function / builtin / ufunc, except a raw string stored by a
buggy registry lookup. -/
def fnIsFunctionType : FnId → Bool
  | .strRef _ => false
  | _ => true

/-- `isinstance` check lifted to a candidate: a non-function object is
never a function type. -/
def candIsFunctionType : FnCand → Bool
  | .f fid => fnIsFunctionType fid
  | .notF _ => false

/-- Membership of a candidate in one of the static (immutable)
registries, i.e. `fn in funcs` over `_binary_funcs`, `_builtin_funcs`,
`_numpy_funcs`, `_unary_funcs` (dict membership tests keys). -/
def staticRegistryContains (c : FnCand) : Bool :=
  match c with
  | .f fid =>
      (binaryFuncs ++ builtinFuncs ++ numpyFuncs ++ unaryFuncs).any
        (fun p => p.1 = fid)
  | .notF _ => false

/-- The registry key a candidate would match in the heterogeneous custom
registry (`fn in self._custom_funcs` tests keys, which after `register`
calls may be display-name strings). -/
def candKey : FnCand → Option RegItem
  | .f fid => some (.fn fid)
  | .notF (.str s) => some (.name s)
  | .notF _ => Option.none

/-- `any(fn in funcs for funcs in self._all_funcs)`. -/
def inAnyRegistry (c : FnCand) (customFuncs : Registry) : Bool :=
  staticRegistryContains c ||
    (match candKey c with
     | some k => customFuncs.any (fun p => p.1 = k)
     | Option.none => false)

/-- Python `type(x)` rendered for the construction error message. -/
def pyTypeName : Val → String
  | .int _ => "int"
  | .float _ => "float"
  | .str _ => "str"
  | .bool _ => "bool"
  | .none => "NoneType"
  | .nan => "float"
  | .list _ => "list"
  | .dict _ => "dict"
  | .pyObj s => s

/-- The `reverse` flag popped from the keyword arguments
(`kwargs.pop('reverse', False)`). -/
def popReverse (kwargs : List (String × Arg)) : Bool :=
  match kwargs.lookup "reverse" with
  | some (.v (.bool b)) => b
  | _ => false

/-- The anchor resolution of `dim.__init__`: a name string becomes the
dimension, an existing expression contributes its own dimension. -/
def anchorDimension : Anchor → String
  | .str s => s
  | .dimObj d => d.dimension
  | .other _ => ""

/-- The operation-list copy of `dim.__init__`: only an existing
expression contributes operations. -/
def anchorOps : Anchor → List Op
  | .dimObj d => d.ops
  | _ => []

/-- The function identity stored in the new operation record: the
function object itself, or the raw string when a string passed the
registry-membership check (see `register`). -/
def candFid : FnCand → FnId
  | .f fid => fid
  | .notF (.str s) => .strRef s
  | .notF _ => .strRef ""

/-- `type(fn)` as rendered into the construction error message. -/
def candTypeName : FnCand → String
  | .f _ => "function"
  | .notF v => pyTypeName v

/-- `dim.__init__(obj, *args, **kwargs)`.  Copies the anchor and the
operation list of `obj`; if a function is supplied it must be a
recognised callable type or a member of one of the registries, otherwise
construction fails eagerly (`ValueError`, the error the specification
names `InvalidOperation`); on success exactly one operation record
`{args, fn, kwargs, reverse}` is appended to the copied list.  Note the
source stores the kwargs dict and pops `reverse` from that same dict, so
the stored kwargs never contain the `reverse` key. -/
def dimInit (obj : Anchor) (fnc : Option FnCand) (args : List Arg)
    (kwargs : List (String × Arg)) (customFuncs : Registry) :
    Except PyErr dim :=
  match obj, fnc with
  | .other v, _ =>
      .error (.attributeError (pyTypeName v ++ " object has no attribute dimension"))
  | obj, Option.none => .ok (.mk (anchorDimension obj) (anchorOps obj))
  | obj, some c =>
      if candIsFunctionType c || inAnyRegistry c customFuncs then
        .ok (.mk (anchorDimension obj)
              (anchorOps obj ++
                [.mk (candFid c) args (kwargs.filter (fun p => p.1 ≠ "reverse"))
                   (popReverse kwargs)]))
      else
        .error (.invalidOperation
          ("Second argument must be a function, found " ++ candTypeName c ++ " type"))

/-! ## Composition entry points

Each Python operator dunder / composition method of `dim` builds a new
expression through `dim.__init__`.  The binary operators all have shape
`dim(self, operator.X, other)`; the reflected ones additionally pass
`reverse=True` (except `__rand__`, which does not, and
`__rlshift__`/`__rrshift__`, whose bodies reference the nonexistent
module attributes `operator.rlshift` / `operator.rrshift`). -/

/-- Keyword-argument encoding of `reverse=True`. -/
def revTrue : List (String × Arg) := [("reverse", .v (.bool true))]

/-- The shared shape of the 17 binary operator dunders:
`dim(self, operator.X, other)`. -/
def dimBinary (e : dim) (op : BinOp) (other : Arg) : Except PyErr dim :=
  dimInit (.dimObj e) (some (.f (.binOp op))) [other] [] customFuncs0

/-- The shared shape of the reflected binary dunders that pass
`reverse=True`: `dim(self, operator.X, other, reverse=True)`. -/
def dimBinaryRev (e : dim) (op : BinOp) (other : Arg) : Except PyErr dim :=
  dimInit (.dimObj e) (some (.f (.binOp op))) [other] revTrue customFuncs0

/-- `dim.__add__`. -/
def dimAdd (e : dim) (other : Arg) : Except PyErr dim := dimBinary e .add other

/-- `dim.__mul__`. -/
def dimMul (e : dim) (other : Arg) : Except PyErr dim := dimBinary e .mul other

/-- `dim.__eq__` — `dim(self, operator.eq, other)`. -/
def dimEqOp (e : dim) (other : Arg) : Except PyErr dim := dimBinary e .eq other

/-- `dim.__ne__` — `dim(self, operator.ne, other)`. -/
def dimNeOp (e : dim) (other : Arg) : Except PyErr dim := dimBinary e .ne other

/-- `dim.__rsub__` — `dim(self, operator.sub, other, reverse=True)`. -/
def dimRSub (e : dim) (other : Arg) : Except PyErr dim := dimBinaryRev e .sub other

/-- `dim.__rlshift__` — the body is
`return dim(self, operator.rlshift, other)`, so evaluating it first
looks up the attribute `rlshift` on the `operator` module. -/
def dimRLshift (e : dim) (other : Arg) : Except PyErr dim :=
  match operatorAttr "rlshift" with
  | some fid => dimInit (.dimObj e) (some (.f fid)) [other] [] customFuncs0
  | Option.none => .error (.attributeError "module operator has no attribute rlshift")

/-- `dim.__rrshift__` — the body is
`return dim(self, operator.rrshift, other)`. -/
def dimRRshift (e : dim) (other : Arg) : Except PyErr dim :=
  match operatorAttr "rrshift" with
  | some fid => dimInit (.dimObj e) (some (.f fid)) [other] [] customFuncs0
  | Option.none => .error (.attributeError "module operator has no attribute rrshift")

/-- `dim.clip(min, max)`: raises when both bounds are omitted, otherwise
`dim(self, np.clip, a_min=min, a_max=max)`. -/
def dimClip (e : dim) (mn mx : Option Arg) : Except PyErr dim :=
  match mn, mx with
  | Option.none, Option.none =>
      .error (.invalidOperation "One of max or min must be given.")
  | _, _ =>
      dimInit (.dimObj e) (some (.f (.npFn .clip))) []
        [("a_min", (mn.getD (.v .none))), ("a_max", (mx.getD (.v .none)))]
        customFuncs0

/-- Keyword arguments built by `dim.norm` / `dim.lognorm` from an
optional `limits` tuple. -/
def limitKwargs : Option (Arg × Arg) → List (String × Arg)
  | Option.none => []
  | some (a, b) => [("min", a), ("max", b)]

/-- `dim.norm(limits=None)` — `dim(self, norm, **kwargs)`. -/
def dimNorm (e : dim) (limits : Option (Arg × Arg)) : Except PyErr dim :=
  dimInit (.dimObj e) (some (.f .normFn)) [] (limitKwargs limits) customFuncs0

/-- `dim.lognorm(limits=None)` — `dim(self, lognorm, **kwargs)`. -/
def dimLognorm (e : dim) (limits : Option (Arg × Arg)) : Except PyErr dim :=
  dimInit (.dimObj e) (some (.f .lognormFn)) [] (limitKwargs limits) customFuncs0

/-- `dim.bin(bins, labels=None)` — `dim(self, bin, bins, labels=labels)`. -/
def dimBin (e : dim) (bins : Arg) (labels : Arg) : Except PyErr dim :=
  dimInit (.dimObj e) (some (.f .binFn)) [bins] [("labels", labels)] customFuncs0

/-- `dim.categorize(categories, default=None)`. -/
def dimCategorize (e : dim) (categories default : Arg) : Except PyErr dim :=
  dimInit (.dimObj e) (some (.f .categorizeFn)) []
    [("categories", categories), ("default", default)] customFuncs0

/-- String arguments of `dim.pipe` are promoted to dimension
expressions before construction. -/
def pipePromote : Arg → Arg
  | .v (.str s) => .e (.mk s [])
  | a => a

/-- `dim.pipe(func, *args, **kwargs)`: promote string arguments, then
`dim(args[0], func, *args[1:], **kwargs)`. -/
def dimPipe (func : FnId) (args : List Arg) (kwargs : List (String × Arg)) :
    Except PyErr dim :=
  match args.map pipePromote with
  | [] => .error (.indexError "list index out of range")
  | .e d0 :: rest => dimInit (.dimObj d0) (some (.f func)) rest kwargs customFuncs0
  | .v v :: rest => dimInit (.other v) (some (.f func)) rest kwargs customFuncs0

/-- One constructor per composition entry point of the `dim` class that
can return an expression, with its argument payload: the builtin, unary
and binary dunders, the reflected dunders (grouped by whether they pass
`reverse=True`; `__rand__` does not), the `__array_ufunc__` capture, and
every reduction / transform method.  `__rlshift__` and `__rrshift__`
always raise (they reference nonexistent `operator` attributes) and so
are settled separately; `__div__`/`__rdiv__` are Python-2-only and never
dispatched under Python 3. -/
inductive Entry where
  | absE : Entry
  | roundBE : Option Arg → Entry
  | negE : Entry
  | notE : Entry
  | posE : Entry
  | binaryE : BinOp → Arg → Entry
  | raddE : Arg → Entry
  | randE : Arg → Entry
  | rfloordivE : Arg → Entry
  | rmodE : Arg → Entry
  | rmulE : Arg → Entry
  | rorE : Arg → Entry
  | rpowE : Arg → Entry
  | rsubE : Arg → Entry
  | rtruedivE : Arg → Entry
  | ufuncE : FnId → List (String × Arg) → Entry
  | clipE : Option Arg → Option Arg → Entry
  | npMethodE : NpFn → List Arg → List (String × Arg) → Entry
  | astypeE : Arg → Entry
  | roundME : Arg → Entry
  | digitizeE : List Arg → List (String × Arg) → Entry
  | isinE : List Arg → List (String × Arg) → Entry
  | binME : Arg → Arg → Entry
  | categorizeME : Arg → Arg → Entry
  | lognormME : Option (Arg × Arg) → Entry
  | normME : Option (Arg × Arg) → Entry
  | strME : Entry

/-- Dispatch an entry point on a receiver expression, exactly as the
corresponding Python method body does.  `__array_ufunc__` drops keyword
arguments whose value is `None` before construction; `str()` is
`astype(str)` with the `str` type object as dtype. -/
def applyEntry (e : dim) (p : Entry) : Except PyErr dim :=
  match p with
  | .absE => dimInit (.dimObj e) (some (.f .builtinAbs)) [] [] customFuncs0
  | .roundBE nd =>
      dimInit (.dimObj e) (some (.f .roundFn))
        (match nd with | Option.none => [] | some d => [d]) [] customFuncs0
  | .negE => dimInit (.dimObj e) (some (.f (.unOp .neg))) [] [] customFuncs0
  | .notE => dimInit (.dimObj e) (some (.f (.unOp .notU))) [] [] customFuncs0
  | .posE => dimInit (.dimObj e) (some (.f (.unOp .pos))) [] [] customFuncs0
  | .binaryE op o => dimBinary e op o
  | .raddE o => dimBinaryRev e .add o
  | .randE o => dimBinary e .andB o
  | .rfloordivE o => dimBinaryRev e .floordiv o
  | .rmodE o => dimBinaryRev e .mod o
  | .rmulE o => dimBinaryRev e .mul o
  | .rorE o => dimBinaryRev e .orB o
  | .rpowE o => dimBinaryRev e .pow o
  | .rsubE o => dimRSub e o
  | .rtruedivE o => dimBinaryRev e .truediv o
  | .ufuncE f kws =>
      dimInit (.dimObj e) (some (.f f)) []
        (kws.filter (fun q => match q.2 with | .v .none => false | _ => true))
        customFuncs0
  | .clipE mn mx => dimClip e mn mx
  | .npMethodE f args kws =>
      dimInit (.dimObj e) (some (.f (.npFn f))) args kws customFuncs0
  | .astypeE dt => dimInit (.dimObj e) (some (.f .astypeFn)) [] [("dtype", dt)] customFuncs0
  | .roundME dec => dimInit (.dimObj e) (some (.f .roundFn)) [] [("decimals", dec)] customFuncs0
  | .digitizeE args kws => dimInit (.dimObj e) (some (.f .digitizeFn)) args kws customFuncs0
  | .isinE args kws => dimInit (.dimObj e) (some (.f .isinFn)) args kws customFuncs0
  | .binME bins labels => dimBin e bins labels
  | .categorizeME cats dflt => dimCategorize e cats dflt
  | .lognormME lims => dimLognorm e lims
  | .normME lims => dimNorm e lims
  | .strME =>
      dimInit (.dimObj e) (some (.f .astypeFn)) [] [("dtype", .v (.pyObj "str"))] customFuncs0

/-! ## Exact numeric semantics

Scalar NumPy arithmetic over the exact fragment: Python/NumPy integers
are `Int`, floats are `ℚ`, NaN propagates through arithmetic and makes
every ordering comparison false (and `!=` true).  Binary operations
broadcast a scalar against an array elementwise, and combine two arrays
of equal length elementwise, as NumPy does for one-dimensional data. -/

/-- Numeric reading of a scalar value (`bool` counts as numeric, as in
NumPy); `nan` is read separately. -/
def qOf : Val → Option ℚ
  | .int n => some (n : ℚ)
  | .float q => some q
  | .bool b => some (if b then 1 else 0)
  | _ => Option.none

/-- Integer reading of a scalar (int or bool), used to keep int dtype
through int-int arithmetic. -/
def intOf : Val → Option Int
  | .int n => some n
  | .bool b => some (if b then 1 else 0)
  | _ => Option.none

def isNanV : Val → Bool
  | .nan => true
  | _ => false

/-- True if the scalar is numeric or NaN (i.e. participates in float
arithmetic). -/
def isNumericV : Val → Bool
  | .int _ => true
  | .float _ => true
  | .bool _ => true
  | .nan => true
  | _ => false

/-- True if the scalar is of float dtype kind (floats and NaN). -/
def isFloatV : Val → Bool
  | .float _ => true
  | .nan => true
  | _ => false

/-- Scalar arithmetic with int-preservation: int op int stays int, any
float operand promotes to float, NaN propagates. -/
def scArith (fi : Int → Int → Int) (fq : ℚ → ℚ → ℚ) (a b : Val) :
    Except PyErr Val :=
  if isNanV a || isNanV b then
    if isNumericV a && isNumericV b then .ok .nan
    else .error (.typeError "unsupported operand type")
  else
    match intOf a, intOf b with
    | some m, some n => .ok (.int (fi m n))
    | _, _ =>
      match qOf a, qOf b with
      | some x, some y => .ok (.float (fq x y))
      | _, _ => .error (.typeError "unsupported operand type")

/-- Scalar true division: always float; a zero denominator is collapsed
to NaN (the IEEE inf/NaN split is outside this exact fragment and is not
exercised by any claim). -/
def scTruediv (a b : Val) : Except PyErr Val :=
  if isNanV a || isNanV b then
    if isNumericV a && isNumericV b then .ok .nan
    else .error (.typeError "unsupported operand type")
  else
    match qOf a, qOf b with
    | some x, some y => .ok (if y = 0 then .nan else .float (x / y))
    | _, _ => .error (.typeError "unsupported operand type")

/-- Scalar comparison for the ordering operators: NaN compares false,
numbers compare by value, strings lexicographically; mixing a string
with a number is a `TypeError` under Python 3. -/
def scCmpOrd (fq : ℚ → ℚ → Bool) (fs : String → String → Bool) (a b : Val) :
    Except PyErr Val :=
  if isNanV a || isNanV b then .ok (.bool false)
  else
    match qOf a, qOf b with
    | some x, some y => .ok (.bool (fq x y))
    | _, _ =>
      match a, b with
      | .str s, .str t => .ok (.bool (fs s t))
      | _, _ => .error (.typeError "comparison not supported between instances")

/-- Scalar equality (`==`): NaN is equal to nothing, numbers compare by
value, strings by content, mismatched kinds are simply unequal. -/
def scEq (a b : Val) : Except PyErr Val :=
  if isNanV a || isNanV b then .ok (.bool false)
  else
    match qOf a, qOf b with
    | some x, some y => .ok (.bool (x = y))
    | _, _ =>
      match a, b with
      | .str s, .str t => .ok (.bool (s = t))
      | .none, .none => .ok (.bool true)
      | _, _ => .ok (.bool false)

/-- Scalar inequality (`!=`), the negation of `scEq` (NaN is unequal to
everything). -/
def scNe (a b : Val) : Except PyErr Val := do
  match ← scEq a b with
  | .bool r => return .bool (!r)
  | _ => .error (.typeError "comparison failed")

/-- Bitwise and / or: booleans combine logically (NumPy bool arrays);
nonnegative integers bitwise; anything else leaves the fragment. -/
def scBitwise (fb : Bool → Bool → Bool) (fn : Nat → Nat → Nat) (a b : Val) :
    Except PyErr Val :=
  match a, b with
  | .bool x, .bool y => .ok (.bool (fb x y))
  | _, _ =>
      match intOf a, intOf b with
      | some m, some n =>
          if 0 ≤ m ∧ 0 ≤ n then .ok (.int (fn m.toNat n.toNat : Nat))
          else .error (.outOfFragment "bitwise on negative integers")
      | _, _ => .error (.typeError "unsupported operand type")

/-- Scalar shifts on integers with a nonnegative shift amount. -/
def scShift (left : Bool) (a b : Val) : Except PyErr Val :=
  match intOf a, intOf b with
  | some m, some n =>
      if 0 ≤ n then
        .ok (.int (if left then m * (2 ^ n.toNat) else Int.fdiv m (2 ^ n.toNat)))
      else .error (.valueError "negative shift count")
  | _, _ => .error (.typeError "unsupported operand type")

/-- Scalar power: int base with nonnegative int exponent stays int
(NumPy raises on a negative int exponent); a rational base with an
integer exponent is exact; fractional exponents are irrational and leave
the fragment. -/
def scPow (a b : Val) : Except PyErr Val :=
  if isNanV a || isNanV b then .ok .nan
  else
    match intOf a, intOf b with
    | some m, some n =>
        if 0 ≤ n then .ok (.int (m ^ n.toNat))
        else .error (.valueError "integers to negative integer powers")
    | _, _ =>
      match qOf a, intOf b with
      | some x, some n =>
          if 0 ≤ n then .ok (.float (x ^ n.toNat))
          else if x = 0 then .error (.valueError "zero to a negative power")
          else .ok (.float (x ^ n))
      | _, _ => .error (.outOfFragment "fractional exponent")

/-- The scalar meaning of each binary operator.  Floor division and
modulo follow Python semantics (`Int.fdiv` / `Int.fmod` floor toward
negative infinity); on floats they floor the exact quotient. -/
def scBinOp : BinOp → Val → Val → Except PyErr Val
  | .add => scArith (· + ·) (· + ·)
  | .sub => scArith (· - ·) (· - ·)
  | .mul => scArith (· * ·) (· * ·)
  | .truediv => scTruediv
  | .floordiv => scArith Int.fdiv (fun x y => ((⌊x / y⌋ : Int) : ℚ))
  | .mod => scArith Int.fmod (fun x y => x - ((⌊x / y⌋ : Int) : ℚ) * y)
  | .pow => scPow
  | .lshift => scShift true
  | .rshift => scShift false
  | .andB => scBitwise (· && ·) Nat.land
  | .orB => scBitwise (· || ·) Nat.lor
  | .eq => scEq
  | .ne => scNe
  | .lt => scCmpOrd (· < ·) (· < ·)
  | .le => scCmpOrd (· ≤ ·) (· ≤ ·)
  | .gt => scCmpOrd (· > ·) (fun s t => t < s)
  | .ge => scCmpOrd (· ≥ ·) (fun s t => t ≤ s || t = s)

/-- NumPy-style broadcasting of a scalar binary operation over
one-dimensional data: array-array elementwise (equal lengths),
array-scalar and scalar-array by mapping, scalar-scalar directly. -/
def broadcast2 (f : Val → Val → Except PyErr Val) : Val → Val → Except PyErr Val
  | .list a, .list b =>
      if a.length = b.length then do
        return .list (← (a.zip b).mapM (fun p => f p.1 p.2))
      else .error (.valueError "operands could not be broadcast together")
  | .list a, s => do return .list (← a.mapM (fun x => f x s))
  | s, .list b => do return .list (← b.mapM (fun y => f s y))
  | a, b => f a b

/-- `operator` binary functions applied to two runtime values. -/
def evalBinOp (op : BinOp) (a b : Val) : Except PyErr Val :=
  broadcast2 (scBinOp op) a b

/-- Scalar unary operators; `operator.not_` is Python logical `not`,
whose truth test is ambiguous on arrays. -/
def truthy : Val → Option Bool
  | .int n => some (n ≠ 0)
  | .float q => some (q ≠ 0)
  | .bool b => some b
  | .str s => some (s ≠ "")
  | .none => some false
  | .nan => some true
  | _ => Option.none

def scNeg : Val → Except PyErr Val
  | .int n => .ok (.int (-n))
  | .float q => .ok (.float (-q))
  | .bool b => .ok (.int (-(if b then 1 else 0)))
  | .nan => .ok .nan
  | _ => .error (.typeError "bad operand type for unary minus")

def scAbs : Val → Except PyErr Val
  | .int n => .ok (.int n.natAbs)
  | .float q => .ok (.float |q|)
  | .bool b => .ok (.int (if b then 1 else 0))
  | .nan => .ok .nan
  | _ => .error (.typeError "bad operand type for abs")

def evalUnOp (u : UnOp) (a : Val) : Except PyErr Val :=
  match u with
  | .neg => broadcast2 (fun x _ => scNeg x) a (.int 0)
  | .pos => .ok a
  | .notU =>
      match a with
      | .list _ => .error (.valueError "truth value of an array is ambiguous")
      | v =>
        match truthy v with
        | some b => .ok (.bool (!b))
        | Option.none => .error (.typeError "bad operand type for not")

/-! ## Reductions and transform functions -/

/-- Elements of an array value (a scalar is its own single element,
as NumPy reductions accept 0-d input). -/
def elemsOf : Val → List Val
  | .list vs => vs
  | v => [v]

/-- `np.min`: NaN-propagating minimum, returning the minimal element
(preserving its dtype); empty input is a `ValueError`. -/
def npMinV (v : Val) : Except PyErr Val :=
  match elemsOf v with
  | [] => .error (.valueError "zero-size array reduction")
  | x :: xs =>
      xs.foldlM
        (fun acc y => do
          if isNanV acc || isNanV y then return Val.nan
          else
            match qOf acc, qOf y with
            | some qa, some qb => return (if qb < qa then y else acc)
            | _, _ => .error (.typeError "cannot reduce non-numeric data"))
        x

/-- `np.max`, symmetric to `npMinV`. -/
def npMaxV (v : Val) : Except PyErr Val :=
  match elemsOf v with
  | [] => .error (.valueError "zero-size array reduction")
  | x :: xs =>
      xs.foldlM
        (fun acc y => do
          if isNanV acc || isNanV y then return Val.nan
          else
            match qOf acc, qOf y with
            | some qa, some qb => return (if qa < qb then y else acc)
            | _, _ => .error (.typeError "cannot reduce non-numeric data"))
        x

/-- `np.sum` over the elements (int dtype preserved). -/
def npSumV (v : Val) : Except PyErr Val :=
  (elemsOf v).foldlM (fun acc y => scBinOp .add acc y) (.int 0)

/-- `np.mean`: sum divided by length (always float). -/
def npMeanV (v : Val) : Except PyErr Val := do
  scTruediv (← npSumV v) (.int (elemsOf v).length)

/-- `np.var` with the default `ddof=0`: mean of squared deviations. -/
def npVarV (v : Val) : Except PyErr Val := do
  let μ ← npMeanV v
  let devs ← (elemsOf v).mapM (fun y => do scBinOp .mul (← scBinOp .sub y μ) (← scBinOp .sub y μ))
  npMeanV (.list devs)

/-- `np.any` / `np.all` by elementwise truthiness. -/
def npAnyV (v : Val) : Except PyErr Val := do
  let bs ← (elemsOf v).mapM (fun y =>
    match truthy y with
    | some b => Except.ok b
    | Option.none => Except.error (PyErr.typeError "truth value undefined"))
  return .bool (bs.any id)

def npAllV (v : Val) : Except PyErr Val := do
  let bs ← (elemsOf v).mapM (fun y =>
    match truthy y with
    | some b => Except.ok b
    | Option.none => Except.error (PyErr.typeError "truth value undefined"))
  return .bool (bs.all id)

/-- `np.cumsum` / `np.cumprod`: running reductions (int preserved). -/
def npCumV (op : BinOp) (v : Val) : Except PyErr Val := do
  let step := fun (st : Option Val × List Val) (y : Val) => do
    match st.1 with
    | Option.none => pure (some y, st.2 ++ [y])
    | some acc => do
        let z ← scBinOp op acc y
        pure (some z, st.2 ++ [z])
  let st ← (elemsOf v).foldlM step ((Option.none : Option Val), ([] : List Val))
  return .list st.2

/-- `np.clip` elementwise with optional bounds (`None` = unbounded). -/
def scClip (mn mx : Val) (x : Val) : Except PyErr Val := do
  let lo ← match mn with
    | .none => pure x
    | b => do
        match ← scCmpOrd (· < ·) (fun _ _ => false) x b with
        | .bool true => pure b
        | _ => pure x
  match mx with
  | .none => pure lo
  | b => do
      match ← scCmpOrd (· > ·) (fun _ _ => false) lo b with
      | .bool true => pure b
      | _ => pure lo

def npClipV (v mn mx : Val) : Except PyErr Val :=
  broadcast2 (fun x _ => scClip mn mx x) v (.int 0)

/-- `norm(values, min=None, max=None)`:
`(values - min) / (max - min)` with the bounds defaulting to
`np.min(values)` / `np.max(values)`. -/
def normT (values mn mx : Val) : Except PyErr Val := do
  let mn ← match mn with
    | .none => npMinV values
    | v => pure v
  let mx ← match mx with
    | .none => npMaxV values
    | v => pure v
  let num ← broadcast2 (scBinOp .sub) values mn
  let den ← broadcast2 (scBinOp .sub) mx mn
  broadcast2 scTruediv num den

/-- NumPy dtype kind test used by `bin`:
`np.asarray(labels).dtype.kind == 'f'` holds exactly when the label
array is numeric and promotes to float (some label is a float or NaN);
an all-integer or all-bool label array has kind `i`/`b`, and any string
gives kind `U`. -/
def labelsKindIsFloat (ls : List Val) : Bool :=
  ls.all isNumericV && ls.any isFloatV

/-- NaN-aware strict greater / non-strict less-or-equal on scalars, the
two comparisons of the `bin` loop (`values > lower`, `values <= upper`);
NaN (and non-numeric data) never satisfies either. -/
def gtB (a b : Val) : Bool :=
  match qOf a, qOf b with
  | some x, some y => y < x
  | _, _ => false

def leB (a b : Val) : Bool :=
  match qOf a, qOf b with
  | some x, some y => x ≤ y
  | _, _ => false

/-- Default bin labels `bins[:-1] + np.diff(bins)/2.`: the midpoint of
each consecutive boundary pair, always of float dtype (the division by
the float literal `2.` promotes). -/
def midpoints (bs : List Val) : Except PyErr (List Val) :=
  ((bs.dropLast).zip (bs.drop 1)).mapM (fun p =>
    match qOf p.1, qOf p.2 with
    | some a, some b => Except.ok (Val.float (a + (b - a) / 2))
    | _, _ => Except.error (PyErr.typeError "bin boundaries must be numeric"))

/-- `bin(values, bins, labels=None)`: start from an array filled with
the sentinel (`NaN` when the label dtype kind is float, else `None`),
then for each consecutive boundary pair `(lower, upper)` with its label,
overwrite the entries with `lower < v <= upper`; `zip` truncates to the
shortest of `bins[:-1]`, `bins[1:]`, `labels`. -/
def binT (values bins labels : Val) : Except PyErr Val := do
  match values, bins with
  | .list vs, .list bs =>
    let labelArr ← match labels with
      | .none => midpoints bs
      | .list ls => pure ls
      | _ => Except.error (PyErr.typeError "labels must be array-like")
    let sentinel := if labelsKindIsFloat labelArr then Val.nan else Val.none
    let triples := ((bs.dropLast).zip (bs.drop 1)).zip labelArr
    let start := vs.map (fun _ => sentinel)
    let binned := triples.foldl
      (fun acc t =>
        (vs.zip acc).map (fun p =>
          if gtB p.1 t.1.1 && leB p.1 t.1.2 then t.2 else p.2))
      start
    return .list binned
  | _, _ => .error (.typeError "bin expects array values and boundaries")

/-- First-seen-order distinct values (`unique_iterator`), using scalar
equality. -/
def uniqFirstSeen (vs : List Val) : List Val :=
  vs.foldl (fun acc v =>
    if acc.any (fun u =>
        match scEq u v with
        | .ok (.bool true) => true
        | _ => false)
    then acc else acc ++ [v]) []

/-- `categorize(values, categories, default=None)`: each value is mapped
through the index of its first-seen distinct position (list categories)
or by direct lookup (dict categories), falling back to `default`. -/
def categorizeT (values categories default : Val) : Except PyErr Val := do
  match values with
  | .list vs =>
    let uniq := uniqFirstSeen vs
    let cats ← vs.mapM (fun c => do
      match categories with
      | .list cl =>
          let catInd := (uniq.findIdx? (fun u =>
            match scEq u c with
            | .ok (.bool true) => true
            | _ => false)).getD uniq.length
          if h : catInd < cl.length then pure (cl.get ⟨catInd, h⟩)
          else pure default
      | .dict d =>
          match d.find? (fun p =>
            match scEq p.1 c with
            | .ok (.bool true) => true
            | _ => false) with
          | some p => pure p.2
          | Option.none => pure default
      | _ => Except.error (PyErr.typeError "categories must be a list or dict"))
    return .list cats
  | _ => .error (.typeError "categorize expects array values")

/-- `np.digitize(values, bins)` with the default `right=False` over
monotonically increasing bins: the index of each value is the number of
boundaries less than or equal to it. -/
def digitizeT (values bins : Val) : Except PyErr Val := do
  match bins with
  | .list bs =>
      broadcast2
        (fun x _ => do
          let cnt := bs.countP (fun b => leB b x)
          pure (Val.int cnt))
        values (.int 0)
  | _ => .error (.typeError "digitize expects array boundaries")

/-- `np.isin(values, test)`: elementwise membership. -/
def isinT (values test : Val) : Except PyErr Val := do
  match test with
  | .list ts =>
      broadcast2
        (fun x _ => do
          pure (Val.bool (ts.any (fun t =>
            match scEq x t with
            | .ok (.bool true) => true
            | _ => false))))
        values (.int 0)
  | _ => .error (.typeError "isin expects array-like test values")

/-! ## The data-source contract and the evaluator (`dim.apply`)

The tabular adapter layer is out of scope for the specification; a
compatible (non-graph) data source exposes dimension lookup, value
extraction and the `gridded` / `multi` / `isunique` interface flags.
The `Graph` redirection branch of `apply` (source lines 417-420) is the
identity for non-graph sources and is not modelled: no claim concerns
graph-like sources. -/

/-- A non-graph tabular data source meeting the capability contract:
named columns, declared key dimensions, and the interface flags consumed
by the `expanded` derivation. -/
structure Dataset where
  cols : List (String × List Val)
  kdims : List String := []
  gridded : Bool := false
  multi : Bool := false
  uniquePerGeom : List String := []

/-- `dataset.get_dimension(name)`: the dimension handle (here just the
name) when the source declares it. -/
def Dataset.getDimension (ds : Dataset) (name : String) : Option String :=
  if (ds.cols.lookup name).isSome then some name else Option.none

/-- `dataset.interface.values(dataset, dimension, expanded, flat,
compute, keep_index)`: raw value extraction for the resolved dimension.
For this plain tabular model the flags do not change the returned
one-dimensional column. -/
def interfaceValues (ds : Dataset) (dimension : String)
    (_expanded _flat _compute _keepIndex : Bool) : Except PyErr Val :=
  match ds.cols.lookup dimension with
  | some vs => .ok (.list vs)
  | Option.none => .error (.valueError ("dimension " ++ dimension ++ " could not be resolved"))

/-- The environment interpreting opaque external functions (the `pipe` /
`register` escape hatch): each `FnId.custom n` is an arbitrary Python
callable receiving the positional and keyword arguments exactly as
`apply` passes them. -/
def ExtFn := Nat → List Arg → List (String × Arg) → Arg

/-- The `ranges` mapping of `apply`: dimension name to its precomputed
combined range bounds (the `{'combined': ...}` entry). -/
def Ranges := List (String × List Val)

/-- Extract a plain value from an argument; an expression-valued operand
reaching a NumPy/operator function dispatches through the NumPy
protocol, which is outside this fragment (no claim evaluates it). -/
def asVal : Arg → Except PyErr Val
  | .v v => .ok v
  | .e _ => .error (.outOfFragment "NumPy dispatch on expression operand")

/-- Python call binding for one named positional-or-keyword parameter. -/
def getParam (args : List Arg) (kwargs : List (String × Arg)) (idx : Nat)
    (name : String) : Option Arg :=
  (args.get? idx).orElse (fun _ => kwargs.lookup name)

/-- Like `getParam` but unwrapping to a value with a default. -/
def valParam (args : List Arg) (kwargs : List (String × Arg)) (idx : Nat)
    (name : String) (dflt : Val) : Except PyErr Val :=
  match getParam args kwargs idx name with
  | some a => asVal a
  | Option.none => .ok dflt

/-- Round-half-to-even of an exact rational, the rounding NumPy uses. -/
def roundHalfEven (q : ℚ) : Int :=
  let f : Int := ⌊q⌋
  let frac := q - (f : ℚ)
  if frac < 1 / 2 then f
  else if frac > 1 / 2 then f + 1
  else if f % 2 = 0 then f else f + 1

/-- `np.round(values, decimals)` on a scalar: ints stay ints, floats
stay floats, exact half-even rounding at the given decimal position. -/
def scRound (decimals : Int) (x : Val) : Except PyErr Val :=
  match x with
  | .nan => .ok .nan
  | .int n =>
      if 0 ≤ decimals then .ok (.int n)
      else
        let p : ℚ := (10 : ℚ) ^ (-decimals).toNat
        .ok (.int (roundHalfEven ((n : ℚ) / p) * (10 : Int) ^ (-decimals).toNat))
  | .float q =>
      let p : ℚ := (10 : ℚ) ^ decimals
      .ok (.float ((roundHalfEven (q * p) : ℚ) / p))
  | .bool b => .ok (.int (if b then 1 else 0))
  | _ => .error (.typeError "round expects numeric data")

/-- Call semantics of each registered function identity over the exact
fragment.  Binary/unary operator functions take exactly the assembled
positional arguments and accept no keyword arguments; the transform
functions bind their Python signatures positionally-or-by-keyword;
`log`, `log10`, `std`, `lognorm` produce irrational values and `astype`
delegates to NumPy casting, all outside the exact fragment (and not
evaluated by any claim); an external `custom` function is interpreted by
the environment `ext`, receiving its arguments verbatim. -/
def evalFn (ext : ExtFn) (fid : FnId) (args : List Arg)
    (kwargs : List (String × Arg)) : Except PyErr Arg :=
  match fid with
  | .custom n => .ok (ext n args kwargs)
  | .strRef _ => .error (.typeError "str object is not callable")
  | .binOp op =>
      match args, kwargs with
      | [a, b], [] => do return .v (← evalBinOp op (← asVal a) (← asVal b))
      | _, _ => .error (.typeError "operator takes exactly two arguments")
  | .unOp u =>
      match args, kwargs with
      | [a], [] => do return .v (← evalUnOp u (← asVal a))
      | _, _ => .error (.typeError "operator takes exactly one argument")
  | .builtinAbs =>
      match args, kwargs with
      | [a], [] => do return .v (← broadcast2 (fun x _ => scAbs x) (← asVal a) (.int 0))
      | _, _ => .error (.typeError "abs takes exactly one argument")
  | .roundFn => do
      let values ← valParam args kwargs 0 "values" .none
      let dec ← valParam args kwargs 1 "decimals" (.int 0)
      match intOf dec with
      | some d => return .v (← broadcast2 (fun x _ => scRound d x) values (.int 0))
      | Option.none => .error (.typeError "decimals must be an integer")
  | .normFn => do
      let values ← valParam args kwargs 0 "values" .none
      let mn ← valParam args kwargs 1 "min" .none
      let mx ← valParam args kwargs 2 "max" .none
      return .v (← normT values mn mx)
  | .lognormFn => .error (.outOfFragment "lognorm is irrational-valued")
  | .binFn => do
      let values ← valParam args kwargs 0 "values" .none
      let bins ← valParam args kwargs 1 "bins" .none
      let labels ← valParam args kwargs 2 "labels" .none
      return .v (← binT values bins labels)
  | .categorizeFn => do
      let values ← valParam args kwargs 0 "values" .none
      let categories ← valParam args kwargs 1 "categories" .none
      let dflt ← valParam args kwargs 2 "default" .none
      return .v (← categorizeT values categories dflt)
  | .digitizeFn => do
      let values ← valParam args kwargs 0 "values" .none
      let bins ← valParam args kwargs 1 "bins" .none
      return .v (← digitizeT values bins)
  | .isinFn => do
      let values ← valParam args kwargs 0 "values" .none
      let test ← valParam args kwargs 1 "test_elements" .none
      return .v (← isinT values test)
  | .astypeFn => .error (.outOfFragment "NumPy dtype casting")
  | .npFn f =>
      match f with
      | .clip => do
          let values ← valParam args kwargs 0 "a" .none
          let mn ← valParam args kwargs 1 "a_min" .none
          let mx ← valParam args kwargs 2 "a_max" .none
          return .v (← npClipV values mn mx)
      | _ =>
        match args, kwargs with
        | [a], [] => do
            let v ← asVal a
            match f with
            | .anyF => do return .v (← npAnyV v)
            | .allF => do return .v (← npAllV v)
            | .cumprod => do return .v (← npCumV .mul v)
            | .cumsum => do return .v (← npCumV .add v)
            | .maxF => do return .v (← npMaxV v)
            | .meanF => do return .v (← npMeanV v)
            | .minF => do return .v (← npMinV v)
            | .sumF => do return .v (← npSumV v)
            | .var => do return .v (← npVarV v)
            | .std => .error (.outOfFragment "std is irrational-valued")
            | .log => .error (.outOfFragment "log is irrational-valued")
            | .log10 => .error (.outOfFragment "log10 is irrational-valued")
            | .clip => .error (.typeError "unreachable")
        | _, _ => .error (.outOfFragment "NumPy reduction options not modelled")

mutual

/-- `dim.apply(dataset, flat, expanded, ranges, all_values, keep_index,
compute)`.  Derives `expanded` when unset, extracts the raw values of
the anchor dimension, then folds the operation list left to right. -/
def dimApplyE (ext : ExtFn) (ds : Dataset) (flat : Bool)
    (expanded : Option Bool) (ranges : Ranges)
    (allValues keepIndex compute : Bool) (e : dim) : Except PyErr Arg :=
  match e with
  | .mk dimension ops =>
    let expandedB := match expanded with
      | some b => b
      | Option.none =>
          !((ds.gridded && ds.kdims.contains dimension) ||
            (ds.multi && ds.uniquePerGeom.contains dimension))
    match interfaceValues ds dimension expandedB flat compute keepIndex with
    | .error err => .error err
    | .ok data =>
        opsFold ext ds flat expandedB ranges allValues keepIndex compute
          dimension ops (.v data)
termination_by structural e

/-- The left-to-right fold of the operation list: each operation
consumes the current value and its result becomes the new current
value. -/
def opsFold (ext : ExtFn) (ds : Dataset) (flat expandedB : Bool)
    (ranges : Ranges) (allValues keepIndex compute : Bool)
    (dimension : String) (ops : List Op) (current : Arg) :
    Except PyErr Arg :=
  match ops with
  | [] => .ok current
  | o :: rest =>
    match applyOp ext ds flat expandedB ranges allValues keepIndex compute
        dimension o current with
    | .error err => .error err
    | .ok next =>
        opsFold ext ds flat expandedB ranges allValues keepIndex compute
          dimension rest next
termination_by structural ops

/-- One step of the fold: resolve expression-valued POSITIONAL
arguments by recursive `apply` with the same flags, assemble
`[current] + resolved` (reversed when the `reverse` flag is set), then
either take the `norm`/`lognorm` precomputed-range special case
(`fn(data, *drange)`) or the generic call `fn(*args, **kwargs)` — the
stored keyword arguments are passed to the function verbatim, with no
substitution of nested expressions. -/
def applyOp (ext : ExtFn) (ds : Dataset) (flat expandedB : Bool)
    (ranges : Ranges) (allValues keepIndex compute : Bool)
    (dimension : String) (o : Op) (current : Arg) : Except PyErr Arg :=
  match o with
  | .mk fn args kwargs reverse =>
    match resolveArgs ext ds flat expandedB ranges allValues keepIndex compute
        args with
    | .error err => .error err
    | .ok resolved =>
      let fnArgs := current :: resolved
      let argsT := if reverse then fnArgs.reverse else fnArgs
      match ds.getDimension dimension with
      | Option.none => .error (.attributeError "NoneType object has no attribute name")
      | some eldimName =>
        let drange := (ranges.lookup eldimName).getD []
        if (fn == .normFn || fn == .lognormFn) && !drange.isEmpty &&
           !((kwargs.lookup "min").isSome && (kwargs.lookup "max").isSome) then
          evalFn ext fn (current :: drange.map Arg.v) []
        else
          evalFn ext fn argsT kwargs
termination_by structural o

/-- Resolution of the positional argument list of one operation: each
nested expression is evaluated against the same source with the same
flags and replaced by its result; plain values pass through. -/
def resolveArgs (ext : ExtFn) (ds : Dataset) (flat expandedB : Bool)
    (ranges : Ranges) (allValues keepIndex compute : Bool)
    (args : List Arg) : Except PyErr (List Arg) :=
  match args with
  | [] => .ok []
  | .v v :: rest =>
    match resolveArgs ext ds flat expandedB ranges allValues keepIndex compute
        rest with
    | .error err => .error err
    | .ok r => .ok (.v v :: r)
  | .e sub :: rest =>
    match dimApplyE ext ds flat (some expandedB) ranges allValues keepIndex
        compute sub with
    | .error err => .error err
    | .ok res =>
      match resolveArgs ext ds flat expandedB ranges allValues keepIndex
          compute rest with
      | .error err => .error err
      | .ok r => .ok (res :: r)
termination_by structural args

end

/-- The default external environment (no custom function does anything). -/
def extNone : ExtFn := fun _ _ _ => .v .none

/-- `apply` with the default flags (`flat=False`, `expanded=None`,
`ranges={}`, `all_values=False`, `keep_index=False`, `compute=True`). -/
def applyDefault (ext : ExtFn) (e : dim) (ds : Dataset) : Except PyErr Arg :=
  dimApplyE ext ds false Option.none [] false false true e

/-! ## The specification's variant of `apply` (keyword substitution)

The specification states that Expression-valued KEYWORD arguments are
resolved by the same substitution rule as positional ones.  The
following variant follows the specification's words — it is identical to
`dimApplyE` except that each operation's keyword-argument values are
also resolved before the function is called — and exists only to be
compared against the evaluator embedded from the source. -/

mutual

/-- Spec-variant of `dimApplyE` (see section comment). -/
def dimApplySpecE (ext : ExtFn) (ds : Dataset) (flat : Bool)
    (expanded : Option Bool) (ranges : Ranges)
    (allValues keepIndex compute : Bool) (e : dim) : Except PyErr Arg :=
  match e with
  | .mk dimension ops =>
    let expandedB := match expanded with
      | some b => b
      | Option.none =>
          !((ds.gridded && ds.kdims.contains dimension) ||
            (ds.multi && ds.uniquePerGeom.contains dimension))
    match interfaceValues ds dimension expandedB flat compute keepIndex with
    | .error err => .error err
    | .ok data =>
        opsFoldSpec ext ds flat expandedB ranges allValues keepIndex compute
          dimension ops (.v data)
termination_by structural e

/-- Spec-variant of `opsFold`. -/
def opsFoldSpec (ext : ExtFn) (ds : Dataset) (flat expandedB : Bool)
    (ranges : Ranges) (allValues keepIndex compute : Bool)
    (dimension : String) (ops : List Op) (current : Arg) :
    Except PyErr Arg :=
  match ops with
  | [] => .ok current
  | o :: rest =>
    match applyOpSpec ext ds flat expandedB ranges allValues keepIndex compute
        dimension o current with
    | .error err => .error err
    | .ok next =>
        opsFoldSpec ext ds flat expandedB ranges allValues keepIndex compute
          dimension rest next
termination_by structural ops

/-- Spec-variant of `applyOp`: in addition to the positional arguments,
the keyword-argument values are resolved and the resolved mapping is
what reaches the function. -/
def applyOpSpec (ext : ExtFn) (ds : Dataset) (flat expandedB : Bool)
    (ranges : Ranges) (allValues keepIndex compute : Bool)
    (dimension : String) (o : Op) (current : Arg) : Except PyErr Arg :=
  match o with
  | .mk fn args kwargs reverse =>
    match resolveArgsSpec ext ds flat expandedB ranges allValues keepIndex
        compute args with
    | .error err => .error err
    | .ok resolved =>
      match resolveKwargsSpec ext ds flat expandedB ranges allValues keepIndex
          compute kwargs with
      | .error err => .error err
      | .ok rkwargs =>
        let fnArgs := current :: resolved
        let argsT := if reverse then fnArgs.reverse else fnArgs
        match ds.getDimension dimension with
        | Option.none => .error (.attributeError "NoneType object has no attribute name")
        | some eldimName =>
          let drange := (ranges.lookup eldimName).getD []
          if (fn == .normFn || fn == .lognormFn) && !drange.isEmpty &&
             !((rkwargs.lookup "min").isSome && (rkwargs.lookup "max").isSome) then
            evalFn ext fn (current :: drange.map Arg.v) []
          else
            evalFn ext fn argsT rkwargs
termination_by structural o

/-- Spec-variant of `resolveArgs` (identical resolution rule). -/
def resolveArgsSpec (ext : ExtFn) (ds : Dataset) (flat expandedB : Bool)
    (ranges : Ranges) (allValues keepIndex compute : Bool)
    (args : List Arg) : Except PyErr (List Arg) :=
  match args with
  | [] => .ok []
  | .v v :: rest =>
    match resolveArgsSpec ext ds flat expandedB ranges allValues keepIndex
        compute rest with
    | .error err => .error err
    | .ok r => .ok (.v v :: r)
  | .e sub :: rest =>
    match dimApplySpecE ext ds flat (some expandedB) ranges allValues keepIndex
        compute sub with
    | .error err => .error err
    | .ok res =>
      match resolveArgsSpec ext ds flat expandedB ranges allValues keepIndex
          compute rest with
      | .error err => .error err
      | .ok r => .ok (res :: r)
termination_by structural args

/-- Resolution of Expression-valued keyword-argument values, as the
specification describes (no counterpart in the source). -/
def resolveKwargsSpec (ext : ExtFn) (ds : Dataset) (flat expandedB : Bool)
    (ranges : Ranges) (allValues keepIndex compute : Bool)
    (kwargs : List (String × Arg)) : Except PyErr (List (String × Arg)) :=
  match kwargs with
  | [] => .ok []
  | (k, .v v) :: rest =>
    match resolveKwargsSpec ext ds flat expandedB ranges allValues keepIndex
        compute rest with
    | .error err => .error err
    | .ok r => .ok ((k, .v v) :: r)
  | (k, .e sub) :: rest =>
    match dimApplySpecE ext ds flat (some expandedB) ranges allValues keepIndex
        compute sub with
    | .error err => .error err
    | .ok res =>
      match resolveKwargsSpec ext ds flat expandedB ranges allValues keepIndex
          compute rest with
      | .error err => .error err
      | .ok r => .ok ((k, res) :: r)
termination_by structural kwargs

end

/-- Spec-variant of `applyDefault`. -/
def applySpecDefault (ext : ExtFn) (e : dim) (ds : Dataset) : Except PyErr Arg :=
  dimApplySpecE ext ds false Option.none [] false false true e

/-! ## Concrete data sources and external environments for the claims -/

/-- A source with column `x = [1, 2, 3]`. -/
def ds123 : Dataset := { cols := [("x", [.int 1, .int 2, .int 3])] }

/-- A source with column `x = [0, 5, 10]`. -/
def ds0510 : Dataset := { cols := [("x", [.int 0, .int 5, .int 10])] }

/-- A source with column `x = [10]`. -/
def dsX10 : Dataset := { cols := [("x", [.int 10])] }

/-- A source with columns `x = [1, 2]` and `y = [5, 6]`. -/
def dsXY : Dataset := { cols := [("x", [.int 1, .int 2]), ("y", [.int 5, .int 6])] }

/-- An external function that echoes the value of its sole keyword
argument (so the result of `apply` exposes exactly what the evaluator
passed for that keyword). -/
def extEcho : ExtFn := fun _ _ kwargs =>
  match kwargs with
  | [(_, a)] => a
  | _ => .v .none

/-- An external function that echoes its second positional argument (so
the result of `apply` exposes what the evaluator passed there). -/
def extEchoPos : ExtFn := fun _ args _ =>
  match args with
  | [_, a] => a
  | _ => .v .none

/-! ## Helper lemmas -/

/-- Whenever `dim.__init__` on an existing expression with an actual
function object succeeds, the result keeps the receiver's anchor and its
operation list extended by exactly one operation. -/
theorem dimInit_dimObj_fn_ok {e : dim} {fid : FnId} {extra : List Arg}
    {kwargs : List (String × Arg)} {customs : Registry} {d2 : dim}
    (h : dimInit (.dimObj e) (some (.f fid)) extra kwargs customs = .ok d2) :
    d2.dimension = e.dimension ∧ ∃ op, d2.ops = e.ops ++ [op] := by
  unfold dimInit at h
  split at h
  case h_1 v heq => exact Anchor.noConfusion heq
  case h_2 heq hx => exact Option.noConfusion heq
  case h_3 c heq hx =>
    obtain rfl : FnCand.f fid = c := by injection heq
    split at h
    · cases h
      exact ⟨rfl, ⟨_, rfl⟩⟩
    · exact absurd h (by simp)

/-! ## Claim theorems -/

/-- C10: the comparison operators are composition entry points: for
every Expression `e` (any anchor `name`, any operation list `ops`) and
every argument `v`, `e == v` and `e != v` evaluate to a NEW Expression
whose operation list is the receiver's with one appended
equality/inequality operation — by the return type of `dimEqOp` /
`dimNeOp` the result is an Expression, never a boolean, so the equality
operator cannot test two Expressions for structural equality. -/
theorem c10_eq_ne_build_expressions (name : String) (ops : List Op) (v : Arg) :
    dimEqOp (.mk name ops) v =
      .ok (.mk name (ops ++ [.mk (.binOp .eq) [v] [] false])) ∧
    dimNeOp (.mk name ops) v =
      .ok (.mk name (ops ++ [.mk (.binOp .ne) [v] [] false])) :=
  ⟨rfl, rfl⟩

/-- C4 (code bug): the reflected shift entry points are broken in the
source: the bodies of `__rlshift__` and `__rrshift__` reference
`operator.rlshift` / `operator.rrshift`, attributes that do not exist in
the Python `operator` module, so `2 << dim(A)` / `2 >> dim(A)` raise
`AttributeError` instead of returning an Expression wrapping the shift
operator with the reverse flag set. -/
theorem c4_rlshift_rrshift_raise :
    dimRLshift (.mk "x" []) (.v (.int 2)) =
      .error (.attributeError "module operator has no attribute rlshift") ∧
    dimRRshift (.mk "x" []) (.v (.int 2)) =
      .error (.attributeError "module operator has no attribute rrshift") :=
  ⟨rfl, rfl⟩

/-- C6: constructing an Expression with a function argument that is
neither a recognised callable type nor present in any registry (here the
integer `5`) fails eagerly at construction with the error the
specification names `InvalidOperation` (the source message
`Second argument must be a function, found ... type`), and `clip` with
both bounds omitted fails the same way; in both cases the `Except` is an
error, so no Expression is produced. -/
theorem c6_invalid_construction_and_clip :
    dimInit (.str "x") (some (.notF (.int 5))) [] [] customFuncs0 =
      .error (.invalidOperation
        "Second argument must be a function, found int type") ∧
    dimClip (.mk "x" []) Option.none Option.none =
      .error (.invalidOperation "One of max or min must be given.") :=
  ⟨rfl, rfl⟩

/-- C9 (code bug): `register` writes the pair the wrong way round.  The
initial custom registry is keyed by function identity (e.g. it maps the
`norm` function to the display name `norm`), but after
`register("squared", f)` the registry maps the display NAME to the
function and has no entry keyed by the function itself — so the claimed
post-state (registry maps `f` to `"squared"`) does not hold. -/
theorem c9_register_reversed_orientation :
    dictGet customFuncs0 (.fn .normFn) = some (.name "norm") ∧
    dictGet (register "squared" (.custom 0) customFuncs0) (.fn (.custom 0)) =
      Option.none ∧
    dictGet (register "squared" (.custom 0) customFuncs0) (.name "squared") =
      some (.fn (.custom 0)) :=
  ⟨rfl, rfl, rfl⟩

/-- C1: `apply` folds the operation sequence left to right.  Concretely,
`dim(A) * 2 + 1` on `x = [1,2,3]` builds the operation list
`[mul 2, add 1]` and evaluates to `[3,5,7]` (multiply then add), while
the reversed list `[add 1, mul 2]` would give `[4,6,8]`; in general the
fold splits over list concatenation (left-to-right sequencing), each
step feeds its result to the next operation as the new current value,
and a (non-reversed) operation receives the current value as the first
element of its assembled positional argument list. -/
theorem c1_apply_folds_left_to_right :
    dimMul (.mk "x" []) (.v (.int 2)) =
      .ok (.mk "x" [.mk (.binOp .mul) [.v (.int 2)] [] false]) ∧
    dimAdd (.mk "x" [.mk (.binOp .mul) [.v (.int 2)] [] false]) (.v (.int 1)) =
      .ok (.mk "x" [.mk (.binOp .mul) [.v (.int 2)] [] false,
                     .mk (.binOp .add) [.v (.int 1)] [] false]) ∧
    applyDefault extNone
        (.mk "x" [.mk (.binOp .mul) [.v (.int 2)] [] false,
                   .mk (.binOp .add) [.v (.int 1)] [] false]) ds123 =
      .ok (.v (.list [.int 3, .int 5, .int 7])) ∧
    applyDefault extNone
        (.mk "x" [.mk (.binOp .add) [.v (.int 1)] [] false,
                   .mk (.binOp .mul) [.v (.int 2)] [] false]) ds123 =
      .ok (.v (.list [.int 4, .int 6, .int 8])) ∧
    (∀ (ext : ExtFn) (ds : Dataset) (flat expB : Bool) (ranges : Ranges)
        (av ki c : Bool) (dn : String) (ops1 ops2 : List Op) (cur : Arg),
      opsFold ext ds flat expB ranges av ki c dn (ops1 ++ ops2) cur =
        match opsFold ext ds flat expB ranges av ki c dn ops1 cur with
        | .error err => .error err
        | .ok mid => opsFold ext ds flat expB ranges av ki c dn ops2 mid) ∧
    (∀ (ext : ExtFn) (ds : Dataset) (flat expB : Bool) (ranges : Ranges)
        (av ki c : Bool) (dn : String) (o : Op) (rest : List Op) (cur : Arg),
      opsFold ext ds flat expB ranges av ki c dn (o :: rest) cur =
        match applyOp ext ds flat expB ranges av ki c dn o cur with
        | .error err => .error err
        | .ok next => opsFold ext ds flat expB ranges av ki c dn rest next) ∧
    (∀ (ext : ExtFn) (dn : String) (vs : List Val) (flat expB av ki c : Bool)
        (fn : FnId) (args : List Arg) (kw : List (String × Arg)) (cur : Arg),
      applyOp ext ⟨[(dn, vs)], [], false, false, []⟩ flat expB [] av ki c dn
          (.mk fn args kw false) cur =
        match resolveArgs ext ⟨[(dn, vs)], [], false, false, []⟩ flat expB []
            av ki c args with
        | .error err => .error err
        | .ok resolved => evalFn ext fn (cur :: resolved) kw) := by
  refine ⟨rfl, rfl, rfl, rfl, ?_, ?_, ?_⟩
  · intro ext ds flat expB ranges av ki c dn ops1 ops2 cur
    induction ops1 generalizing cur with
    | nil => rfl
    | cons o rest ih =>
        simp only [List.cons_append, opsFold]
        rcases applyOp ext ds flat expB ranges av ki c dn o cur with err | next
        · rfl
        · exact ih next
  · intro ext ds flat expB ranges av ki c dn o rest cur
    rfl
  · intro ext dn vs flat expB av ki c fn args kw cur
    have hdim : Dataset.getDimension ⟨[(dn, vs)], [], false, false, []⟩ dn = some dn := by
      simp [Dataset.getDimension, List.lookup]
    simp only [applyOp, hdim]
    rcases hr : resolveArgs ext ⟨[(dn, vs)], [], false, false, []⟩ flat expB []
        av ki c args with err | resolved
    · simp [hr]
    · simp [hr]

/-- C3: a reverse-flagged binary operation places the implicit current
value as the right-hand operand: the assembled positional list
`[current] + resolved` is reversed before the operator is called (shown
in general over a one-column source), and `__rsub__` stores
`operator.sub` with `reverse=True` so `1 - dim(A)` on `x = [1,2,3]`
yields `[0,-1,-2]`, not `x - 1`. -/
theorem c3_reverse_places_current_value_right :
    dimRSub (.mk "x" []) (.v (.int 1)) =
      .ok (.mk "x" [.mk (.binOp .sub) [.v (.int 1)] [] true]) ∧
    applyDefault extNone (.mk "x" [.mk (.binOp .sub) [.v (.int 1)] [] true])
        ds123 =
      .ok (.v (.list [.int 0, .int (-1), .int (-2)])) ∧
    (∀ (ext : ExtFn) (dn : String) (vs : List Val) (flat expB av ki c : Bool)
        (fn : FnId) (args : List Arg) (kw : List (String × Arg)) (cur : Arg),
      applyOp ext ⟨[(dn, vs)], [], false, false, []⟩ flat expB [] av ki c dn
          (.mk fn args kw true) cur =
        match resolveArgs ext ⟨[(dn, vs)], [], false, false, []⟩ flat expB []
            av ki c args with
        | .error err => .error err
        | .ok resolved => evalFn ext fn ((cur :: resolved).reverse) kw) := by
  refine ⟨rfl, rfl, ?_⟩
  intro ext dn vs flat expB av ki c fn args kw cur
  have hdim : Dataset.getDimension ⟨[(dn, vs)], [], false, false, []⟩ dn = some dn := by
    simp [Dataset.getDimension, List.lookup]
  simp only [applyOp, hdim]
  rcases hr : resolveArgs ext ⟨[(dn, vs)], [], false, false, []⟩ flat expB []
      av ki c args with err | resolved
  · simp [hr]
  · simp [hr]

/-- C7: `norm` rescales linearly into `[0,1]` by
`(values - min) / (max - min)`, with the bounds defaulting to the data's
own min and max: `dim(A).norm()` on `x = [0,5,10]` yields
`[0.0, 0.5, 1.0]`, and explicit `limits=(0,20)` (stored as `min`/`max`
keyword arguments) yields `[0.0, 0.25, 0.5]` even though the data's own
maximum is 10; in general, on a scalar with explicit rational bounds the
result is exactly `(q - min) / (max - min)` whenever the bounds
differ. -/
theorem c7_norm_linear_rescale :
    dimNorm (.mk "x" []) Option.none =
      .ok (.mk "x" [.mk .normFn [] [] false]) ∧
    applyDefault extNone (.mk "x" [.mk .normFn [] [] false]) ds0510 =
      .ok (.v (.list [.float 0, .float (1 / 2), .float 1])) ∧
    dimNorm (.mk "x" []) (some (.v (.int 0), .v (.int 20))) =
      .ok (.mk "x" [.mk .normFn []
            [("min", .v (.int 0)), ("max", .v (.int 20))] false]) ∧
    applyDefault extNone
        (.mk "x" [.mk .normFn []
          [("min", .v (.int 0)), ("max", .v (.int 20))] false]) ds0510 =
      .ok (.v (.list [.float 0, .float (1 / 4), .float (1 / 2)])) ∧
    (∀ q mn mx : ℚ,
      normT (.float q) (.float mn) (.float mx) =
        .ok (if mx - mn = 0 then Val.nan
             else Val.float ((q - mn) / (mx - mn)))) := by
  refine ⟨rfl, ?_, rfl, ?_, ?_⟩
  · with_unfolding_all rfl
  · with_unfolding_all rfl
  · intro q mn mx
    with_unfolding_all rfl

/-- C8 counterexample: the claim says values falling in no bin get NaN
whenever the label type is NUMERIC — but for the numeric (integer)
labels `[1, 2]` the label array's dtype kind is `i`, not `f`, so the
source fills the unmatched entry with `None`, not NaN: `bin` of the
value 25 over bins `[0,10,20]` with labels `[1,2]` returns `[None]` and
not `[NaN]`. -/
theorem c8_counterexample_integer_labels :
    binT (.list [.int 25]) (.list [.int 0, .int 10, .int 20])
        (.list [.int 1, .int 2]) = .ok (.list [Val.none]) ∧
    binT (.list [.int 25]) (.list [.int 0, .int 10, .int 20])
        (.list [.int 1, .int 2]) ≠ .ok (.list [Val.nan]) := by
  refine ⟨rfl, ?_⟩
  intro h
  rw [show binT (.list [.int 25]) (.list [.int 0, .int 10, .int 20])
        (.list [.int 1, .int 2]) = .ok (.list [Val.none]) from rfl] at h
  simp at h

/-- C8 (amended): `bin` assigns each value to the label of the
half-open-above interval `(lower, upper]` it falls in, scanning
consecutive boundary pairs in order — the boundary value 10 for bins
`[0,10,20]` falls in `(0,10]` (label 5.0), not `(10,20]` (label 15.0);
omitted labels default to the (always float) bin midpoints; and a value
falling in no bin gets NaN exactly when the label array's dtype kind is
float, and `None` otherwise — including for integer labels.  The last
conjunct checks the boundary policy through a full `dim(A).bin(...)`
expression evaluated by `apply`. -/
theorem c8_bin_half_open_intervals_and_sentinels :
    binT (.list [.int 10]) (.list [.int 0, .int 10, .int 20]) .none =
      .ok (.list [.float 5]) ∧
    binT (.list [.int 12]) (.list [.int 0, .int 10, .int 20]) .none =
      .ok (.list [.float 15]) ∧
    midpoints [.int 0, .int 10, .int 20] = .ok [.float 5, .float 15] ∧
    binT (.list [.int 25]) (.list [.int 0, .int 10, .int 20])
        (.list [.float 1, .float 2]) = .ok (.list [Val.nan]) ∧
    binT (.list [.int 25]) (.list [.int 0, .int 10, .int 20])
        (.list [.str "a", .str "b"]) = .ok (.list [Val.none]) ∧
    binT (.list [.int 25]) (.list [.int 0, .int 10, .int 20])
        (.list [.int 1, .int 2]) = .ok (.list [Val.none]) ∧
    dimBin (.mk "x" []) (.v (.list [.int 0, .int 10, .int 20])) (.v .none) =
      .ok (.mk "x" [.mk .binFn [.v (.list [.int 0, .int 10, .int 20])]
            [("labels", .v .none)] false]) ∧
    applyDefault extNone
        (.mk "x" [.mk .binFn [.v (.list [.int 0, .int 10, .int 20])]
          [("labels", .v .none)] false]) dsX10 =
      .ok (.v (.list [.float 5])) := by
  refine ⟨?_, ?_, ?_, rfl, rfl, rfl, rfl, ?_⟩
  · with_unfolding_all rfl
  · with_unfolding_all rfl
  · with_unfolding_all rfl
  · with_unfolding_all rfl

/-- C5 counterexample: Expression-valued KEYWORD arguments are not
substituted before the operation's function is called.  The expression
is `dim.pipe(f, dim(A), weight=dim(B))` over a source with
`x=[1,2]`, `y=[5,6]`, where the external `f` returns the value of its
sole keyword argument: the evaluator embedded from the source hands `f`
the RAW nested expression (so `apply` returns it unevaluated), whereas
the evaluator that follows the specification's words
(`dimApplySpecE`, which resolves keyword arguments too) returns the
substituted column values `[5, 6]` — and the two results differ. -/
theorem c5_counterexample_kwargs_not_substituted :
    dimPipe (.custom 0) [.v (.str "x")] [("weight", .e (.mk "y" []))] =
      .ok (.mk "x" [.mk (.custom 0) [] [("weight", .e (.mk "y" []))] false]) ∧
    applyDefault extEcho
        (.mk "x" [.mk (.custom 0) [] [("weight", .e (.mk "y" []))] false])
        dsXY =
      .ok (.e (.mk "y" [])) ∧
    applySpecDefault extEcho
        (.mk "x" [.mk (.custom 0) [] [("weight", .e (.mk "y" []))] false])
        dsXY =
      .ok (.v (.list [.int 5, .int 6])) ∧
    (Arg.e (.mk "y" []) : Arg) ≠ .v (.list [.int 5, .int 6]) := by
  refine ⟨rfl, rfl, rfl, ?_⟩
  intro h
  exact Arg.noConfusion h

/-- C5 (amended): during `apply` only the Expression-valued POSITIONAL
arguments of an operation are recursively evaluated against the same
source and substituted; the keyword-argument mapping is passed to the
operation's function verbatim, nested Expressions included.  With an
external function echoing its second positional argument,
`dim.pipe(f, dim(A), dim(B))` evaluates the nested `dim(B)` to the
column values `[5, 6]`; with one echoing its keyword argument, the
nested keyword Expression arrives unevaluated. -/
theorem c5_amended_positional_substituted_kwargs_verbatim :
    dimPipe (.custom 1) [.v (.str "x"), .v (.str "y")] [] =
      .ok (.mk "x" [.mk (.custom 1) [.e (.mk "y" [])] [] false]) ∧
    applyDefault extEchoPos
        (.mk "x" [.mk (.custom 1) [.e (.mk "y" [])] [] false]) dsXY =
      .ok (.v (.list [.int 5, .int 6])) ∧
    applyDefault extEcho
        (.mk "x" [.mk (.custom 0) [] [("weight", .e (.mk "y" []))] false])
        dsXY =
      .ok (.e (.mk "y" [])) :=
  ⟨rfl, rfl, rfl⟩

/-- C2: every composition entry point of the `dim` class that returns an
Expression returns a NEW Expression carrying the receiver's anchor and
the receiver's operation list with exactly one operation appended; the
receiver itself appears unchanged on the right-hand side, so it remains
reusable in any number of independent compositions.  (The entry points
that raise instead of returning — `clip` without bounds, the broken
reflected shifts — produce no Expression and are covered by C6/C4.) -/
theorem c2_entry_points_append_exactly_one_op (e : dim) (p : Entry) (d2 : dim)
    (h : applyEntry e p = .ok d2) :
    d2.dimension = e.dimension ∧ ∃ op, d2.ops = e.ops ++ [op] := by
  cases p <;>
    simp only [applyEntry, dimBinary, dimBinaryRev, dimRSub, dimNorm,
      dimLognorm, dimBin, dimCategorize, dimClip] at h <;>
    try exact dimInit_dimObj_fn_ok h
  rename_i mn mx
  cases mn <;> cases mx
  · exact absurd h (by simp)
  all_goals exact dimInit_dimObj_fn_ok h

/-- Witness for C2 at a concrete input: appending `+ 1` to the bare
expression over dimension `x`. -/
theorem c2_witness :
    (dim.mk "x" [.mk (.binOp .add) [.v (.int 1)] [] false]).dimension =
      (dim.mk "x" []).dimension ∧
    ∃ op, (dim.mk "x" [.mk (.binOp .add) [.v (.int 1)] [] false]).ops =
      (dim.mk "x" []).ops ++ [op] :=
  c2_entry_points_append_exactly_one_op (.mk "x" [])
    (.binaryE .add (.v (.int 1)))
    (.mk "x" [.mk (.binOp .add) [.v (.int 1)] [] false]) rfl

end Transform
